import Mathlib

/-!
Shallow embedding of ChainSonar (src/contract_activity_pulse.py), the
scan-and-aggregate routine `analyze_contract_pulse`.

Modelling conventions:
- `w3.to_checksum_address` is an abstract partial function
  `toChecksumAddress : String → Option String`; `none` models the
  `ValueError` it raises on a malformed address.
- `w3.eth.block_number` is an abstract natural `blockNumber`.
- `w3.eth.get_block(n, full_transactions=True)` is
  `getBlock : Int → Option (List Tx)`; `none` models any exception
  raised by the fetch.
- Python floats are modelled by exact rationals `ℚ`; every ratio the
  program produces that a property talks about (0, 100, x/x) is exact
  in binary floating point as well.
- The Python function mutates two locals (`period_transactions`,
  `period_unique_interactors`); an exception raised while a block is
  being processed keeps the mutations already performed, so the
  per-transaction step returns the state reached at the raise point
  together with a flag saying whether an exception was raised.
- The Python function prints its metrics and returns `None` on every
  path (the early `return` on a bad address and falling off the end).
  A run therefore records the printed outcome, the provider requests
  issued, and the returned value (always `none`).
-/

/-- A transaction as read from a fetched block: the `to` field may be
null (contract creation), the `from` field is always present. -/
structure Tx where
  toAddr : Option String
  fromAddr : String
deriving DecidableEq

/-- The chain-data provider consumed by the scan (the `w3` object). -/
structure Provider where
  toChecksumAddress : String → Option String
  blockNumber : Nat
  getBlock : Int → Option (List Tx)

/-- A request issued against the provider. -/
inductive Request where
  | headHeight : Request
  | blockFetch : Int → Request
deriving DecidableEq

/-- The result record the specification calls `ScanResult`. -/
structure ScanResult where
  totalTransactions : Nat
  uniqueSenders : Finset String
  engagementRatio : ℚ
  adoptionIndex : ℚ
deriving DecidableEq

/-- What the program does visibly: either the invalid-address error
path (lines 49-51 of the source), or the printed report of the four
metrics together with the block numbers whose processing failed and
was reported (line 82). -/
inductive RunOutcome where
  | invalidAddress : RunOutcome
  | report : ScanResult → List Int → RunOutcome
deriving DecidableEq

/-- One full run of `analyze_contract_pulse`: its visible outcome, the
provider requests it issued, and its Python return value. -/
structure PyRun where
  outcome : RunOutcome
  requests : List Request
  returned : Option ScanResult
deriving DecidableEq

/-- Scan accumulator: `period_transactions` and
`period_unique_interactors` (source lines 64-65). -/
abbrev ScanState := Nat × Finset String

/-- Lines 76-79 of the source, one transaction:

  if tx[to] and w3.to_checksum_address(tx[to]) == target_address:
      period_transactions += 1
      from_address = w3.to_checksum_address(tx[from])
      period_unique_interactors.add(from_address)

Returns the state after the statement and whether it raised.  A null
(or empty, hence falsy) `to` short-circuits the condition.  If the
checksum of `from` raises, the counter increment has already happened
and survives. -/
def procTx (p : Provider) (target : String) (st : ScanState) (tx : Tx) :
    ScanState × Bool :=
  match tx.toAddr with
  | none => (st, false)
  | some s =>
      if s = "" then (st, false)
      else
        match p.toChecksumAddress s with
        | none => (st, true)
        | some cs =>
            if cs = target then
              match p.toChecksumAddress tx.fromAddr with
              | none => ((st.1 + 1, st.2), true)
              | some fa => ((st.1 + 1, insert fa st.2), false)
            else (st, false)

/-- The transaction loop of one block (line 75): stops at the first
transaction that raises, reporting the raise. -/
def procTxs (p : Provider) (target : String) :
    List Tx → ScanState → ScanState × Bool
  | [], st => (st, false)
  | tx :: rest, st =>
      let r := procTx p target st tx
      if r.2 then (r.1, true) else procTxs p target rest r.1

/-- One iteration of the block loop body (lines 73-79): fetch the
block, then process its transactions; a fetch exception leaves the
state unchanged. -/
def procBlock (p : Provider) (target : String) (b : Int) (st : ScanState) :
    ScanState × Bool :=
  match p.getBlock b with
  | none => (st, true)
  | some txs => procTxs p target txs st

/-- The block loop (lines 72-83): each failed block is caught, its
number reported (collected here), and the scan continues. -/
def scanBlocks (p : Provider) (target : String) :
    List Int → ScanState → ScanState × List Int
  | [], st => (st, [])
  | b :: bs, st =>
      let pb := procBlock p target b st
      let rest := scanBlocks p target bs pb.1
      (rest.1, if pb.2 then b :: rest.2 else rest.2)

/-- Integer range `[a, b]` inclusive, empty when `a > b` (Python
`range(a, b + 1)`). -/
def intRange (a b : Int) : List Int :=
  (List.range (b + 1 - a).toNat).map (fun (i : Nat) => a + (i : Int))

/-- The scanned window (lines 53-54, 68): from
`latest_block_number - num_blocks + 1` to `latest_block_number`. -/
def blockWindow (head : Nat) (numBlocks : Int) : List Int :=
  intRange ((head : Int) - numBlocks + 1) (head : Int)

/-- Metric computation (lines 93-105): `engagement_ratio`,
`known_wallets = set()`, `newly_discovered_wallets`, and
`adoption_velocity_index`, with the division-by-zero guards of the
source. -/
def computeResult (st : ScanState) : ScanResult :=
  let total_unique_wallets := st.2.card
  let engagement_ratio : ℚ :=
    if total_unique_wallets > 0 then (st.1 : ℚ) / (total_unique_wallets : ℚ)
    else 0
  let known_wallets : Finset String := ∅
  let newly_discovered_wallets := st.2 \ known_wallets
  let adoption_velocity_index : ℚ :=
    if total_unique_wallets > 0 then
      ((newly_discovered_wallets.card : ℚ) / (total_unique_wallets : ℚ)) * 100
    else 0
  ⟨st.1, st.2, engagement_ratio, adoption_velocity_index⟩

/-- The whole routine `analyze_contract_pulse(w3, contract_address,
num_blocks)` (lines 41-125).  On a bad address it prints an error and
returns before any provider request; otherwise it reads the head
height, scans the window, computes the metrics, prints them, and
returns `None`. -/
def analyze_contract_pulse (p : Provider) (contract_address : String)
    (num_blocks : Int) : PyRun :=
  match p.toChecksumAddress contract_address with
  | none => ⟨RunOutcome.invalidAddress, [], none⟩
  | some target_address =>
      let blocks := blockWindow p.blockNumber num_blocks
      let scanned := scanBlocks p target_address blocks (0, ∅)
      ⟨RunOutcome.report (computeResult scanned.1) scanned.2,
        Request.headHeight :: blocks.map Request.blockFetch,
        none⟩

/-! ### Basic facts about the window -/

theorem mem_intRange {a b x : Int} : x ∈ intRange a b ↔ a ≤ x ∧ x ≤ b := by
  unfold intRange
  rw [List.mem_map]
  constructor
  · rintro ⟨i, hi, rfl⟩
    rw [List.mem_range] at hi
    omega
  · rintro ⟨h1, h2⟩
    refine ⟨(x - a).toNat, ?_, ?_⟩
    · rw [List.mem_range]
      omega
    · omega

theorem length_intRange (a b : Int) : (intRange a b).length = (b + 1 - a).toNat := by
  rw [intRange, List.length_map, List.length_range]

theorem blockWindow_of_nonpos (H : Nat) (n : Int) (hn : n ≤ 0) :
    blockWindow H n = [] := by
  have : (blockWindow H n).length = 0 := by
    simp only [blockWindow, length_intRange]
    omega
  exact List.eq_nil_of_length_eq_zero this

/-! ### The counter dominates the sender-set cardinality -/

theorem procTx_card_le (p : Provider) (t : String) (st : ScanState) (tx : Tx)
    (h : st.2.card ≤ st.1) :
    ((procTx p t st tx).1).2.card ≤ ((procTx p t st tx).1).1 := by
  unfold procTx
  rcases tx with ⟨_ | s, fr⟩
  · exact h
  · dsimp only
    split_ifs with hs
    · exact h
    · cases p.toChecksumAddress s with
      | none => exact h
      | some cs =>
          dsimp only
          split_ifs with ht
          · cases p.toChecksumAddress fr with
            | none =>
                show st.2.card ≤ st.1 + 1
                omega
            | some fa =>
                show (insert fa st.2).card ≤ st.1 + 1
                have := Finset.card_insert_le fa st.2
                omega
          · exact h

theorem procTxs_card_le (p : Provider) (t : String) (txs : List Tx) (st : ScanState)
    (h : st.2.card ≤ st.1) :
    ((procTxs p t txs st).1).2.card ≤ ((procTxs p t txs st).1).1 := by
  induction txs generalizing st with
  | nil => simpa [procTxs] using h
  | cons tx rest ih =>
      simp only [procTxs]
      by_cases hr : (procTx p t st tx).2
      · simpa [hr] using procTx_card_le p t st tx h
      · simpa [hr] using ih _ (procTx_card_le p t st tx h)

theorem procBlock_card_le (p : Provider) (t : String) (b : Int) (st : ScanState)
    (h : st.2.card ≤ st.1) :
    ((procBlock p t b st).1).2.card ≤ ((procBlock p t b st).1).1 := by
  unfold procBlock
  rcases p.getBlock b with _ | txs
  · exact h
  · exact procTxs_card_le p t txs st h

theorem scanBlocks_card_le (p : Provider) (t : String) (bs : List Int) (st : ScanState)
    (h : st.2.card ≤ st.1) :
    ((scanBlocks p t bs st).1).2.card ≤ ((scanBlocks p t bs st).1).1 := by
  induction bs generalizing st with
  | nil => simpa [scanBlocks] using h
  | cons b rest ih =>
      simp only [scanBlocks]
      exact ih _ (procBlock_card_le p t b st h)

/-! ### The run depends only on what the provider answers -/

theorem procTx_congr (p q : Provider) (t : String) (st : ScanState) (tx : Tx)
    (hcs : p.toChecksumAddress = q.toChecksumAddress) :
    procTx p t st tx = procTx q t st tx := by
  unfold procTx
  rw [hcs]

theorem procTxs_congr (p q : Provider) (t : String) (txs : List Tx) (st : ScanState)
    (hcs : p.toChecksumAddress = q.toChecksumAddress) :
    procTxs p t txs st = procTxs q t txs st := by
  induction txs generalizing st with
  | nil => rfl
  | cons tx rest ih =>
      simp only [procTxs, procTx_congr p q t st tx hcs]
      by_cases hr : (procTx q t st tx).2 <;> simp [hr, ih]

theorem procBlock_congr (p q : Provider) (t : String) (b : Int) (st : ScanState)
    (hcs : p.toChecksumAddress = q.toChecksumAddress)
    (hgb : p.getBlock b = q.getBlock b) :
    procBlock p t b st = procBlock q t b st := by
  unfold procBlock
  rw [hgb]
  cases q.getBlock b with
  | none => rfl
  | some txs => exact procTxs_congr p q t txs st hcs

theorem scanBlocks_congr (p q : Provider) (t : String) (bs : List Int) (st : ScanState)
    (hcs : p.toChecksumAddress = q.toChecksumAddress)
    (hgb : ∀ b ∈ bs, p.getBlock b = q.getBlock b) :
    scanBlocks p t bs st = scanBlocks q t bs st := by
  induction bs generalizing st with
  | nil => rfl
  | cons b rest ih =>
      simp only [scanBlocks]
      rw [procBlock_congr p q t b st hcs (hgb b (List.mem_cons_self b rest))]
      rw [ih _ (fun x hx => hgb x (List.mem_cons_of_mem b hx))]

/-! ### Metric computation facts -/

theorem computeResult_totalTransactions (st : ScanState) :
    (computeResult st).totalTransactions = st.1 := rfl

theorem computeResult_uniqueSenders (st : ScanState) :
    (computeResult st).uniqueSenders = st.2 := rfl

theorem computeResult_of_empty (st : ScanState) (h : st.2 = ∅) :
    (computeResult st).engagementRatio = 0 ∧ (computeResult st).adoptionIndex = 0 := by
  simp [computeResult, h]

theorem computeResult_adoption_of_pos (st : ScanState) (h : 0 < st.2.card) :
    (computeResult st).adoptionIndex = 100 := by
  have hc : (st.2.card : ℚ) ≠ 0 := Nat.cast_ne_zero.mpr h.ne'
  simp [computeResult, h, Finset.sdiff_empty, div_self hc]

/-! ### The two paths through the routine -/

theorem analyze_of_checksum_none (p : Provider) (a : String) (n : Int)
    (hcs : p.toChecksumAddress a = none) :
    analyze_contract_pulse p a n = ⟨RunOutcome.invalidAddress, [], none⟩ := by
  unfold analyze_contract_pulse
  rw [hcs]

theorem analyze_of_checksum_some (p : Provider) (a : String) (n : Int) (t : String)
    (hcs : p.toChecksumAddress a = some t) :
    analyze_contract_pulse p a n =
      ⟨RunOutcome.report
          (computeResult (scanBlocks p t (blockWindow p.blockNumber n) (0, ∅)).1)
          (scanBlocks p t (blockWindow p.blockNumber n) (0, ∅)).2,
        Request.headHeight :: (blockWindow p.blockNumber n).map Request.blockFetch,
        none⟩ := by
  unfold analyze_contract_pulse
  rw [hcs]

theorem analyze_report_eq (p : Provider) (a : String) (n : Int) (r : ScanResult)
    (fs : List Int) (h : (analyze_contract_pulse p a n).outcome = RunOutcome.report r fs) :
    ∃ t, p.toChecksumAddress a = some t ∧
      r = computeResult (scanBlocks p t (blockWindow p.blockNumber n) (0, ∅)).1 ∧
      fs = (scanBlocks p t (blockWindow p.blockNumber n) (0, ∅)).2 := by
  rcases hcs : p.toChecksumAddress a with _ | t
  · rw [analyze_of_checksum_none p a n hcs] at h
    simp at h
  · rw [analyze_of_checksum_some p a n t hcs] at h
    simp only [RunOutcome.report.injEq] at h
    exact ⟨t, rfl, h.1.symm, h.2.symm⟩

/-! ### Concrete test fixtures -/

/-- Concrete checksum function: every string is already canonical
except the literal "BAD", which fails (models a malformed address). -/
def sonarCs : String → Option String := fun s => if s = "BAD" then none else some s

/-- Head at block 1; block 1 holds two transactions to "T" from "S1";
any other block fetch raises. -/
def provTwoTx : Provider :=
  ⟨sonarCs, 1, fun b => if b = 1 then some [⟨some "T", "S1"⟩, ⟨some "T", "S1"⟩] else none⟩

/-- Same observable window data as `provTwoTx`, but answers differently
outside the window (block 0 yields an empty block instead of raising). -/
def provTwoTxB : Provider :=
  ⟨sonarCs, 1, fun b => if b = 1 then some [⟨some "T", "S1"⟩, ⟨some "T", "S1"⟩] else some []⟩

/-- Head at block 5; every block is empty. -/
def provEmptyBlocks : Provider := ⟨sonarCs, 5, fun _ => some []⟩

/-- Head at block 1; block 1 holds one transaction to "T" whose sender
address fails checksumming, so processing raises mid-transaction. -/
def provBadFrom : Provider :=
  ⟨sonarCs, 1, fun b => if b = 1 then some [⟨some "T", "BAD"⟩] else none⟩

/-- Head at block 1; every block fetch raises. -/
def provFetchFail : Provider := ⟨sonarCs, 1, fun _ => none⟩

theorem provTwoTx_run :
    analyze_contract_pulse provTwoTx "T" 1 =
      ⟨RunOutcome.report ⟨2, {"S1"}, 2, 100⟩ [],
        [Request.headHeight, Request.blockFetch 1], none⟩ := by
  simp [analyze_contract_pulse, blockWindow, intRange, List.range_succ, scanBlocks,
    procBlock, procTxs, procTx, computeResult, provTwoTx, sonarCs]

theorem provEmptyBlocks_run :
    analyze_contract_pulse provEmptyBlocks "T" 2 =
      ⟨RunOutcome.report ⟨0, ∅, 0, 0⟩ [],
        [Request.headHeight, Request.blockFetch 4, Request.blockFetch 5], none⟩ := by
  simp [analyze_contract_pulse, blockWindow, intRange, List.range_succ, scanBlocks,
    procBlock, procTxs, procTx, computeResult, provEmptyBlocks, sonarCs]

theorem provBadFrom_run :
    analyze_contract_pulse provBadFrom "T" 1 =
      ⟨RunOutcome.report ⟨1, ∅, 0, 0⟩ [1],
        [Request.headHeight, Request.blockFetch 1], none⟩ := by
  simp [analyze_contract_pulse, blockWindow, intRange, List.range_succ, scanBlocks,
    procBlock, procTxs, procTx, computeResult, provBadFrom, sonarCs]

/-! ### Claims -/

/-- C1 (amended): for every provider, valid target address and any
numBlocks, the scan computes the four metric fields and reports
(prints) them as a record, but the routine returns None — no
ScanResult value is returned to the caller. -/
theorem C1_report_printed_but_none_returned (p : Provider) (a : String) (n : Int)
    (t : String) (hcs : p.toChecksumAddress a = some t) :
    (∃ r fs, (analyze_contract_pulse p a n).outcome = RunOutcome.report r fs) ∧
    (analyze_contract_pulse p a n).returned = none := by
  rw [analyze_of_checksum_some p a n t hcs]
  exact ⟨⟨_, _, rfl⟩, rfl⟩

/-- C1 witness: the amended claim at a concrete connected provider,
valid address "T" and numBlocks = 1. -/
theorem C1_report_printed_but_none_returned_witness :
    provTwoTx.toChecksumAddress "T" = some "T" ∧
    ((∃ r fs, (analyze_contract_pulse provTwoTx "T" 1).outcome = RunOutcome.report r fs) ∧
      (analyze_contract_pulse provTwoTx "T" 1).returned = none) :=
  ⟨by simp [provTwoTx, sonarCs],
    C1_report_printed_but_none_returned provTwoTx "T" 1 "T" (by simp [provTwoTx, sonarCs])⟩

/-- C1 counterexample: a connected provider, a valid target address and
numBlocks = 1, where the scan produces all four metric fields in its
printed report yet returns nothing (None) — refuting the claim that a
structured ScanResult is returned rather than only printed. -/
theorem C1_counterexample :
    (analyze_contract_pulse provTwoTx "T" 1).returned = none ∧
    (analyze_contract_pulse provTwoTx "T" 1).outcome =
      RunOutcome.report ⟨2, {"S1"}, 2, 100⟩ [] := by
  rw [provTwoTx_run]
  exact ⟨rfl, rfl⟩

/-- C2 (amended): a block whose FETCH raises contributes nothing,
is reported as failed, and the scan continues with the remaining
blocks.  (When processing raises mid-block, however, transactions
already counted in that block keep their contributions.) -/
theorem C2_fetch_failure_skipped (p : Provider) (t : String) (b : Int)
    (bs : List Int) (st : ScanState) (hb : p.getBlock b = none) :
    scanBlocks p t (b :: bs) st =
      ((scanBlocks p t bs st).1, b :: (scanBlocks p t bs st).2) := by
  simp only [scanBlocks, procBlock, hb, if_true]

/-- C2 witness: the amended claim at a concrete provider whose block 1
fetch raises. -/
theorem C2_fetch_failure_skipped_witness :
    provFetchFail.getBlock 1 = none ∧
    scanBlocks provFetchFail "T" [1] (0, ∅) =
      ((scanBlocks provFetchFail "T" [] (0, ∅)).1,
        1 :: (scanBlocks provFetchFail "T" [] (0, ∅)).2) :=
  ⟨rfl, C2_fetch_failure_skipped provFetchFail "T" 1 [] (0, ∅) rfl⟩

/-- C2 counterexample: in `provBadFrom`, block 1's only transaction
matches the target, the counter is incremented, and then checksumming
the sender raises; block 1 is reported failed (failure list [1]), yet
the final totalTransactions is 1, not 0 — refuting "a failed block
contributes nothing to totalTransactions". -/
theorem C2_counterexample :
    (analyze_contract_pulse provBadFrom "T" 1).outcome =
      RunOutcome.report ⟨1, ∅, 0, 0⟩ [1] := by
  rw [provBadFrom_run]

/-- C3 (amended): the code performs no validation of numBlocks: for
every numBlocks <= 0 (and a valid address) the window is empty and the
scan completes normally, reporting zero transactions, an empty sender
set and both ratios 0, raising no error. -/
theorem C3_nonpos_scans_nothing (p : Provider) (a : String) (n : Int) (t : String)
    (hn : n ≤ 0) (hcs : p.toChecksumAddress a = some t) :
    analyze_contract_pulse p a n =
      ⟨RunOutcome.report ⟨0, ∅, 0, 0⟩ [], [Request.headHeight], none⟩ := by
  rw [analyze_of_checksum_some p a n t hcs, blockWindow_of_nonpos p.blockNumber n hn]
  simp [scanBlocks, computeResult]

/-- C3 witness: the amended claim at numBlocks = 0. -/
theorem C3_nonpos_scans_nothing_witness :
    (0 : Int) ≤ 0 ∧ provEmptyBlocks.toChecksumAddress "T" = some "T" ∧
    analyze_contract_pulse provEmptyBlocks "T" 0 =
      ⟨RunOutcome.report ⟨0, ∅, 0, 0⟩ [], [Request.headHeight], none⟩ :=
  ⟨le_refl 0, by simp [provEmptyBlocks, sonarCs],
    C3_nonpos_scans_nothing provEmptyBlocks "T" 0 "T" (le_refl 0)
      (by simp [provEmptyBlocks, sonarCs])⟩

/-- C3 counterexample: at numBlocks = 0 the call is not rejected and
no InvalidArgumentError exists anywhere in the code: the run completes
and produces a (degenerate, all-zero) report — refuting "rejects the
call with InvalidArgumentError, producing no result". -/
theorem C3_counterexample :
    analyze_contract_pulse provEmptyBlocks "T" 0 =
      ⟨RunOutcome.report ⟨0, ∅, 0, 0⟩ [], [Request.headHeight], none⟩ := by
  simp [analyze_contract_pulse, blockWindow, intRange, scanBlocks, computeResult,
    provEmptyBlocks, sonarCs]

/-- C4: whenever the target address fails checksumming, the routine
stops at the invalid-address error with an empty request log — no
head-height request, no block request, and no report. -/
theorem C4_invalid_address_aborts_early (p : Provider) (a : String) (n : Int)
    (hcs : p.toChecksumAddress a = none) :
    analyze_contract_pulse p a n = ⟨RunOutcome.invalidAddress, [], none⟩ :=
  analyze_of_checksum_none p a n hcs

/-- C4 witness: the claim at the concrete malformed address "BAD". -/
theorem C4_invalid_address_aborts_early_witness :
    provTwoTx.toChecksumAddress "BAD" = none ∧
    analyze_contract_pulse provTwoTx "BAD" 3 = ⟨RunOutcome.invalidAddress, [], none⟩ :=
  ⟨by simp [provTwoTx, sonarCs],
    C4_invalid_address_aborts_early provTwoTx "BAD" 3 (by simp [provTwoTx, sonarCs])⟩

/-- C5: for numBlocks >= 1 and head height H, the computed window is
exactly the inclusive integer range [H - numBlocks + 1, H]: it has
exactly numBlocks entries, membership is the interval condition, and H
is its greatest element (the endBlock). -/
theorem C5_window_shape (H : Nat) (n : Int) (hn : 1 ≤ n) :
    ((blockWindow H n).length : Int) = n ∧
    (∀ b : Int, b ∈ blockWindow H n ↔ (H : Int) - n + 1 ≤ b ∧ b ≤ (H : Int)) ∧
    (H : Int) ∈ blockWindow H n ∧
    (∀ b ∈ blockWindow H n, b ≤ (H : Int)) := by
  have hmem : ∀ b : Int, b ∈ blockWindow H n ↔ (H : Int) - n + 1 ≤ b ∧ b ≤ (H : Int) := by
    intro b
    unfold blockWindow
    exact mem_intRange
  refine ⟨?_, hmem, ?_, ?_⟩
  · rw [blockWindow, length_intRange]
    omega
  · rw [hmem]
    omega
  · intro b hb
    exact ((hmem b).mp hb).2

/-- C5 witness: the claim at head height 5 and numBlocks = 3. -/
theorem C5_window_shape_witness :
    (1 : Int) ≤ 3 ∧ ((blockWindow 5 3).length : Int) = 3 ∧ (5 : Int) ∈ blockWindow 5 3 :=
  ⟨by norm_num, (C5_window_shape 5 3 (by norm_num)).1,
    (C5_window_shape 5 3 (by norm_num)).2.2.1⟩

/-- C6: the transaction counter dominates the sender-set cardinality.
Part one: the per-transaction step preserves the invariant
|uniqueSenders| <= totalTransactions (every insertion into the set
comes with its own counter increment), so it holds at every point of
the scan.  Part two: it holds of the final reported result. -/
theorem C6_counter_dominates_senders :
    (∀ (p : Provider) (t : String) (st : ScanState) (tx : Tx), st.2.card ≤ st.1 →
      ((procTx p t st tx).1).2.card ≤ ((procTx p t st tx).1).1) ∧
    (∀ (p : Provider) (a : String) (n : Int) (r : ScanResult) (fs : List Int),
      (analyze_contract_pulse p a n).outcome = RunOutcome.report r fs →
      r.uniqueSenders.card ≤ r.totalTransactions) := by
  constructor
  · exact procTx_card_le
  · intro p a n r fs h
    obtain ⟨t, _, hr, _⟩ := analyze_report_eq p a n r fs h
    subst hr
    rw [computeResult_uniqueSenders, computeResult_totalTransactions]
    exact scanBlocks_card_le p t _ (0, ∅) (by simp)

/-- C6 witness: both parts at concrete inputs (a null-recipient
transaction step from the empty state, and the concrete two-transaction
run). -/
theorem C6_counter_dominates_senders_witness :
    (((0 : Nat), (∅ : Finset String)).2.card ≤ ((0 : Nat), (∅ : Finset String)).1 ∧
      ((procTx provTwoTx "T" (0, ∅) ⟨none, "S1"⟩).1).2.card ≤
        ((procTx provTwoTx "T" (0, ∅) ⟨none, "S1"⟩).1).1) ∧
    ((analyze_contract_pulse provTwoTx "T" 1).outcome =
        RunOutcome.report ⟨2, {"S1"}, 2, 100⟩ [] ∧
      (⟨2, {"S1"}, 2, 100⟩ : ScanResult).uniqueSenders.card ≤
        (⟨2, {"S1"}, 2, 100⟩ : ScanResult).totalTransactions) := by
  have hev : (analyze_contract_pulse provTwoTx "T" 1).outcome =
      RunOutcome.report ⟨2, {"S1"}, 2, 100⟩ [] := by
    rw [provTwoTx_run]
  exact ⟨⟨by simp, C6_counter_dominates_senders.1 provTwoTx "T" (0, ∅) ⟨none, "S1"⟩ (by simp)⟩,
    hev, C6_counter_dominates_senders.2 provTwoTx "T" 1 _ _ hev⟩

/-- C7: whenever the reported result has an empty sender set, both
ratios are 0: the guards of lines 96 and 105 take the else branch and
no division by zero happens. -/
theorem C7_empty_senders_zero_ratios (p : Provider) (a : String) (n : Int)
    (r : ScanResult) (fs : List Int)
    (h : (analyze_contract_pulse p a n).outcome = RunOutcome.report r fs)
    (hemp : r.uniqueSenders = ∅) :
    r.engagementRatio = 0 ∧ r.adoptionIndex = 0 := by
  obtain ⟨t, _, hr, _⟩ := analyze_report_eq p a n r fs h
  subst hr
  exact computeResult_of_empty _ ((computeResult_uniqueSenders _).symm.trans hemp)

/-- C7 witness: the claim at the all-empty-blocks run, whose sender
set is empty. -/
theorem C7_empty_senders_zero_ratios_witness :
    (analyze_contract_pulse provEmptyBlocks "T" 2).outcome =
        RunOutcome.report ⟨0, ∅, 0, 0⟩ [] ∧
    (⟨0, ∅, 0, 0⟩ : ScanResult).uniqueSenders = ∅ ∧
    ((⟨0, ∅, 0, 0⟩ : ScanResult).engagementRatio = 0 ∧
      (⟨0, ∅, 0, 0⟩ : ScanResult).adoptionIndex = 0) := by
  have hev : (analyze_contract_pulse provEmptyBlocks "T" 2).outcome =
      RunOutcome.report ⟨0, ∅, 0, 0⟩ [] := by
    rw [provEmptyBlocks_run]
  exact ⟨hev, rfl, C7_empty_senders_zero_ratios provEmptyBlocks "T" 2 _ _ hev rfl⟩

/-- C8: the code fixes known_wallets to the empty set (line 102), so
newly_discovered_wallets equals the whole sender set and the adoption
index of every reported result with at least one unique sender is
exactly 100. -/
theorem C8_adoption_index_100 (p : Provider) (a : String) (n : Int)
    (r : ScanResult) (fs : List Int)
    (h : (analyze_contract_pulse p a n).outcome = RunOutcome.report r fs)
    (hpos : 0 < r.uniqueSenders.card) :
    r.adoptionIndex = 100 := by
  obtain ⟨t, _, hr, _⟩ := analyze_report_eq p a n r fs h
  subst hr
  exact computeResult_adoption_of_pos _
    (by simpa [computeResult_uniqueSenders] using hpos)

/-- C8 witness: the claim at the concrete two-transaction run, whose
sender set is the singleton containing "S1". -/
theorem C8_adoption_index_100_witness :
    (analyze_contract_pulse provTwoTx "T" 1).outcome =
        RunOutcome.report ⟨2, {"S1"}, 2, 100⟩ [] ∧
    0 < (⟨2, {"S1"}, 2, 100⟩ : ScanResult).uniqueSenders.card ∧
    (⟨2, {"S1"}, 2, 100⟩ : ScanResult).adoptionIndex = 100 := by
  have hev : (analyze_contract_pulse provTwoTx "T" 1).outcome =
      RunOutcome.report ⟨2, {"S1"}, 2, 100⟩ [] := by
    rw [provTwoTx_run]
  exact ⟨hev, by simp, C8_adoption_index_100 provTwoTx "T" 1 _ _ hev (by simp)⟩

/-- C9: the run is a pure function of what the provider answers:
two providers with the same checksum function, the same head height,
and the same block data over the computed window produce identical
full runs (identical ScanResult fields, failure list and requests) —
scanning identical immutable data twice gives identical results. -/
theorem C9_identical_data_identical_result (p q : Provider) (a : String) (n : Int)
    (hcs : p.toChecksumAddress = q.toChecksumAddress)
    (hh : p.blockNumber = q.blockNumber)
    (hgb : ∀ b ∈ blockWindow p.blockNumber n, p.getBlock b = q.getBlock b) :
    analyze_contract_pulse p a n = analyze_contract_pulse q a n := by
  unfold analyze_contract_pulse
  rw [hcs, hh]
  cases q.toChecksumAddress a with
  | none => rfl
  | some t =>
      dsimp only
      rw [scanBlocks_congr p q t (blockWindow q.blockNumber n) (0, ∅) hcs
        (fun b hb => hgb b (by rw [hh]; exact hb))]

/-- C9 witness: two observably distinct providers (they answer
differently for block 0, which is outside the window) that agree on
the window data produce equal runs. -/
theorem C9_identical_data_identical_result_witness :
    analyze_contract_pulse provTwoTx "T" 1 = analyze_contract_pulse provTwoTxB "T" 1 ∧
    provTwoTx.getBlock 0 ≠ provTwoTxB.getBlock 0 := by
  constructor
  · refine C9_identical_data_identical_result provTwoTx provTwoTxB "T" 1 rfl rfl ?_
    intro b hb
    have hw : blockWindow provTwoTx.blockNumber 1 = [1] := by
      simp [provTwoTx, blockWindow, intRange, List.range_succ]
    rw [hw] at hb
    simp only [List.mem_singleton] at hb
    subst hb
    simp [provTwoTx, provTwoTxB]
  · simp [provTwoTx, provTwoTxB]

/-- C10: a transaction whose recipient field is null is skipped
unconditionally: for every provider (hence independently of any
checksum canonicalization), the per-transaction step leaves the
counter and the sender set unchanged and raises nothing. -/
theorem C10_null_recipient_skipped (p : Provider) (t : String) (st : ScanState)
    (f : String) : procTx p t st ⟨none, f⟩ = (st, false) := rfl
